import Mathlib

/-!
Shallow embedding of the core of the Eventlet repository
(src/eventlet/coros.py, src/eventlet/hubs/__init__.py, src/eventlet/tpool.py)
and proofs about the claims of its specification.

Conventions:
* Python values are modelled by the inductive `PyVal`; Python exception
  instances by `PyExc`.
* A fiber (greenlet) is identified by a natural number.  Fiber `0` plays
  the role of the hub's own fiber in concrete counterexamples.
* Stateful methods are modelled as pure functions from the object's state
  to a result record that carries the possibly-raised exception, the new
  state, and the calls scheduled on the hub.
-/

namespace Eventlet

/-- Python exception instances that occur in the modelled code paths. -/
inductive PyExc where
  | assertionError (msg : String)
  | cancelled
  | greenletExit
  | keyboardInterrupt
  | systemExit
  | nameError (n : String)
  | timeout
  | userExc (tag : Nat)
  deriving DecidableEq, Repr

/-- Python values flowing through events and the thread pool. -/
inductive PyVal where
  | none
  | int (n : Int)
  | str (s : String)
  | exc (e : PyExc)
  | excType (e : PyExc)
  | traceback
  | tuple (xs : List PyVal)
  deriving Repr

/-- A fiber (greenlet) identity. -/
abbrev Fiber := Nat

/-! ## `coros.event` (src/eventlet/coros.py lines 42-194)

`_result` is `NOT_USED` while the event is FRESH; we model the field as
`Option PyVal`, with `Option.none` standing for the `NOT_USED` sentinel.
`_exc` is only ever read after a `send`, which always assigns it, so it is
an `Option PyExc` that is `Option.none` until then.  `_waiters` is a dict
keyed by greenlets; we keep its keys as a list without duplicates. -/

structure EventState where
  result : Option PyVal
  exc : Option PyExc
  waiters : List Fiber
  deriving Repr

/-- The state after `event.__init__` (which calls `reset()` on a fresh
object): `_result = NOT_USED`, `_waiters = {}`, `_exc` not yet set. -/
def event.new : EventState := ⟨Option.none, Option.none, []⟩

/-- A call scheduled on the hub via `hub.schedule_call(0, ...)`. -/
inductive Call where
  | switch (w : Fiber) (v : PyVal)
  | switchThrow (w : Fiber) (e : PyExc)
  deriving Repr

/-- Dict-key insertion for `self._waiters[api.getcurrent()] = True`. -/
def insertWaiter (ws : List Fiber) (f : Fiber) : List Fiber :=
  if ws.contains f then ws else ws ++ [f]

/-- Outcome of a call to `event.wait` observed by the calling fiber. -/
inductive WaitStep where
  | blocked (st : EventState)
  | value (v : PyVal)
  | raises (e : PyExc)
  deriving Repr

/-- `event.wait` (coros.py lines 91-117): if `_result is NOT_USED`, record
the current fiber in `_waiters` and switch to the hub; otherwise re-raise
`_exc` when it is not `None`, else return `_result`.  Note that the source
performs no check that the caller is not the hub fiber. -/
def event.wait (st : EventState) (current : Fiber) : WaitStep :=
  match st.result with
  | Option.none => .blocked { st with waiters := insertWaiter st.waiters current }
  | some r =>
    match st.exc with
    | some e => .raises e
    | Option.none => .value r

/-- Result of a call to `event.send`: the assertion error raised (if any),
the state of the event after the call, and the calls scheduled on the hub. -/
structure SendResult where
  err : Option PyExc
  st : EventState
  scheduled : List Call
  deriving Repr

/-- `event.send` (coros.py lines 163-194): assert the event is FRESH, store
`result` and `exc`, and for each waiter schedule
`hub.schedule_call(0, greenlib.switch, waiter, self._result)` — the stored
*value* is passed to every waiter, whether or not `exc` was given. -/
def event.send (st0 : EventState) (result : PyVal) (exc : Option PyExc) : SendResult :=
  match st0.result with
  | some _ =>
    ⟨some (.assertionError "Trying to re-send() an already-triggered event."), st0, []⟩
  | Option.none =>
    ⟨Option.none, ⟨some result, exc, st0.waiters⟩,
     st0.waiters.map (fun w => Call.switch w result)⟩

/-- Result of a call to `event.reset`. -/
structure ResetResult where
  err : Option PyExc
  st : EventState
  deriving Repr

/-- `event.reset` (coros.py lines 65-89): assert the event is not FRESH,
then set `_result = NOT_USED` and `_waiters = {}` (`_exc` is left as is). -/
def event.reset (st0 : EventState) : ResetResult :=
  match st0.result with
  | Option.none => ⟨some (.assertionError "Trying to re-reset() a fresh event."), st0⟩
  | some _ => ⟨Option.none, ⟨Option.none, st0.exc, []⟩⟩

/-- Outcome of `event.wait` in a fiber resumed by a scheduled call. -/
inductive WaitOutcome where
  | returns (v : PyVal)
  | raises (e : PyExc)
  deriving Repr

/-- Modelled from the spec: `greenlib.switch` is not under src/; per §4.A
"*switch_to(fiber, value)* resumes target with *value* as the return of its
current suspension", so a fiber blocked at `return api.get_hub().switch()`
inside `event.wait` observes the switched value as a normal return, and a
`throw_into` resumes it by raising the exception there. -/
def resumedWaitOutcome : Call → WaitOutcome
  | .switch _ v => .returns v
  | .switchThrow _ e => .raises e

/-! ## `trampoline` (src/eventlet/hubs/__init__.py lines 96-142)

The hub's listener registry and timer set are modelled as lists; `hub.add`
appends a `(direction, fileno)` listener, `hub.remove` deletes it,
`hub.schedule_call_global` appends a fresh timer id, and `Timer.cancel`
deletes that id.  `hub.switch()` either returns normally with the value
passed by the readiness callback or raises the exception thrown into the
fiber by the timeout timer; the outcome is a parameter of the model. -/

structure HubState where
  listeners : List (Bool × Nat)
  timers : List Nat
  nextTimerId : Nat
  deriving Repr

/-- `hub.add(direction, fileno, cb)`: install a listener.  The direction is
`false` for `hub.READ` and `true` for `hub.WRITE`. -/
def hubAdd (h : HubState) (isWrite : Bool) (fileno : Nat) : HubState :=
  { h with listeners := h.listeners ++ [(isWrite, fileno)] }

/-- `hub.remove(listener)`: uninstall a listener. -/
def hubRemove (h : HubState) (l : Bool × Nat) : HubState :=
  { h with listeners := h.listeners.filter (fun x => decide (x ≠ l)) }

/-- `hub.schedule_call_global(timeout, current.throw, timeout_exc)`:
schedule a timer, returning its handle. -/
def scheduleGlobal (h : HubState) : Nat × HubState :=
  (h.nextTimerId, { h with timers := h.timers ++ [h.nextTimerId],
                           nextTimerId := h.nextTimerId + 1 })

/-- `t.cancel()`: cancel a scheduled timer. -/
def timerCancel (h : HubState) (id : Nat) : HubState :=
  { h with timers := h.timers.filter (fun x => decide (x ≠ id)) }

/-- What `hub.switch()` does when the suspended fiber is resumed: a normal
return of the value passed by the listener callback (`current.switch`), or
an exception thrown into the fiber (`current.throw(timeout_exc)`). -/
inductive SwitchOutcome where
  | normal (v : PyVal)
  | thrown (e : PyExc)
  deriving Repr

/-- `trampoline(fd, read, write, timeout, timeout_exc)` (hubs/__init__.py
lines 96-142), as a function of the hub state, of whether the caller *is*
the hub fiber, and of the eventual `hub.switch()` outcome.  The source:
asserts the caller is not the hub greenlet, asserts not both read and
write, schedules a global timer when a timeout is given, installs a READ
or WRITE listener, switches to the hub, then in a `finally` removes the
listener and in an outer `finally` cancels the timer.  When neither `read`
nor `write` is given the local `listener` is never bound and the inner
`finally` raises a `NameError`. -/
def trampoline (h : HubState) (currentIsHub : Bool) (read write : Bool)
    (timeout : Option Nat) (fileno : Nat) (outcome : SwitchOutcome) :
    Except PyExc PyVal × HubState :=
  if currentIsHub then
    (.error (.assertionError "do not call blocking functions from the mainloop"), h)
  else if read && write then
    (.error (.assertionError "not allowed to trampoline for reading and writing"), h)
  else
    let th : Option Nat × HubState :=
      match timeout with
      | Option.none => (Option.none, h)
      | some _ => let s := scheduleGlobal h; (some s.1, s.2)
    let installed : Option (Bool × Nat) :=
      if read then some (false, fileno) else if write then some (true, fileno)
      else Option.none
    let h2 : HubState :=
      match installed with
      | some l => hubAdd th.2 l.1 l.2
      | Option.none => th.2
    let res : Except PyExc PyVal :=
      match outcome with
      | .normal v => .ok v
      | .thrown e => .error e
    let afterInner : Except PyExc PyVal × HubState :=
      match installed with
      | some l => (res, hubRemove h2 l)
      | Option.none => (.error (.nameError "listener"), h2)
    let h4 : HubState :=
      match th.1 with
      | some id => timerCancel afterInner.2 id
      | Option.none => afterInner.2
    (afterInner.1, h4)

/-! ## `Actor` (src/eventlet/coros.py lines 333-398)

The mailbox is a deque of messages.  To state the once-per-message and
in-order properties we also record two histories: `log`, the messages that
have been passed to `received` (in call order), and `casts`, the messages
ever given to `cast` (in call order). -/

structure ActorState where
  mailbox : List PyVal
  log : List PyVal
  casts : List PyVal
  deriving Repr

/-- `Actor.cast(message)` (coros.py lines 363-376): append to the mailbox;
if this made it the only message, `send` the internal event.  Returns the
new state and whether the event was sent. -/
def Actor.cast (st : ActorState) (msg : PyVal) : ActorState × Bool :=
  let mb := st.mailbox ++ [msg]
  (⟨mb, st.log, st.casts ++ [msg]⟩, mb.length == 1)

/-- One iteration of `Actor.run_forever` (coros.py lines 350-361): when the
mailbox is empty, wait on the event and reset it (no `received` call);
otherwise call `received(self._mailbox[0])` and then pop it.  The message
stays in the mailbox during `received` so a concurrent `cast` cannot
re-trigger the event. -/
def Actor.ownerStep (st : ActorState) : ActorState :=
  match st.mailbox with
  | [] => st
  | m :: rest => ⟨rest, st.log ++ [m], st.casts⟩

/-- An interleaving of the owner loop with calls to `cast`. -/
inductive ActorAction where
  | cast (m : PyVal)
  | step
  deriving Repr

/-- Run a sequence of interleaved actions from a state. -/
def Actor.run (st : ActorState) : List ActorAction → ActorState
  | [] => st
  | .cast m :: rest => Actor.run (Actor.cast st m).1 rest
  | .step :: rest => Actor.run (Actor.ownerStep st) rest

/-- The actor right after `Actor.__init__`: empty mailbox, no history. -/
def Actor.init : ActorState := ⟨[], [], []⟩

/-! ## `CoroutinePool._main_loop` (src/eventlet/coros.py lines 247-263)

One iteration receives `(evt, func, args, kw)` from the worker's inbox and
runs `func`.  The possible outcomes of that call in the handled paths are a
normal return, an `api.GreenletExit`, or an ordinary `Exception`. -/

inductive JobOutcome where
  | ok (v : PyVal)
  | greenletExit
  | exc (e : PyExc)
  deriving Repr

/-- The payload of an `evt.send(...)` performed by the worker. -/
inductive SendPayload where
  | value (v : PyVal)
  | exception (e : PyExc)
  deriving Repr

/-- The externally visible actions of one `_main_loop` iteration. -/
structure WorkerActions where
  sent : Option (Nat × SendPayload)
  timersCancelled : Bool
  returnedToPool : Bool
  deriving Repr

/-- One iteration of `CoroutinePool._main_loop` after receiving
`(evt, func, args, kw)` (coros.py lines 251-263): on a normal result,
`evt.send(result)` when `evt` is not `None`; on `api.GreenletExit`, pass;
on an ordinary `Exception e`, print the traceback and `evt.send(exc=e)`
when `evt` is not `None`; in all three paths then run
`api.get_hub().runloop.cancel_timers(api.getcurrent())` and
`self.put(sender)`. -/
def CoroutinePool.mainLoopIter (evt : Option Nat) (oc : JobOutcome) : WorkerActions :=
  match oc with
  | .ok v => ⟨evt.map (fun id => (id, .value v)), true, true⟩
  | .greenletExit => ⟨Option.none, true, true⟩
  | .exc e => ⟨evt.map (fun id => (id, .exception e)), true, true⟩

/-! ## `tpool` (src/eventlet/tpool.py) -/

/-- What invoking `meth(*args, **kwargs)` does: return a value or raise. -/
inductive MethResult where
  | ok (v : PyVal)
  | raises (e : PyExc)
  deriving Repr

/-- `SYS_EXCS = (KeyboardInterrupt, SystemExit)` (tpool.py line 61). -/
def isSysExc : PyExc → Bool
  | .keyboardInterrupt => true
  | .systemExit => true
  | _ => false

/-- `sys.exc_info()` for a raised exception: the `(type, value, traceback)`
triple the worker stores as `rv`. -/
def excInfo (e : PyExc) : PyVal :=
  PyVal.tuple [PyVal.excType e, PyVal.exc e, PyVal.traceback]

/-- What one round of the `tworker` loop does with the popped message. -/
inductive WorkerStep where
  | exitLoop
  | response (evtId : Nat) (rv : PyVal) (byteWritten : Bool)
  | propagate (e : PyExc)
  deriving Repr

/-- One round of `tworker` (tpool.py lines 64-80): pop `msg` from `_reqq`;
if it is `None`, return from the loop; otherwise run `meth`.  On a normal
return, `rv` is the value; on `SYS_EXCS` the exception is re-raised out of
the loop (no response, no wake byte); on any other `Exception`,
`rv = sys.exc_info()`.  When not re-raised, push `(e, rv)` to `_rspq` and
write one byte to the wake pipe (`_signal_t2e`). -/
def tworker_step (msg : Option (Nat × MethResult)) : WorkerStep :=
  match msg with
  | Option.none => .exitLoop
  | some (evtId, .ok v) => .response evtId v true
  | some (evtId, .raises e) =>
    if isSysExc e then .propagate e
    else .response evtId (excInfo e) true

/-- `erecv(e)` (tpool.py lines 83-92): wait for the event's value `rv`; if
`rv` is a tuple of length 3 whose element at index 1 is an `Exception`
instance, re-raise that exception in the caller; otherwise return `rv`. -/
def erecv (rv : PyVal) : Except PyExc PyVal :=
  match rv with
  | .tuple [_, .exc e, _] => .error e
  | v => .ok v

/-! ## Hub selection (src/eventlet/hubs/__init__.py lines 12-76) -/

/-- The facts about the running interpreter that `get_default_hub` probes:
whether `twisted.internet.reactor` is in `sys.modules`, whether
`eventlet.hubs.epolls` is importable, and whether the `select` module has
`poll`. -/
structure HubEnv where
  twistedReactorLoaded : Bool
  epollsImportable : Bool
  selectHasPoll : Bool
  deriving Repr

/-- The hub module chosen. -/
inductive HubModule where
  | twistedr
  | epolls
  | poll
  | selects
  | named (s : String)
  deriving DecidableEq, Repr

/-- `get_default_hub()` (hubs/__init__.py lines 12-49): the pyevent hub is
disabled; return `twistedr` when the twisted reactor is already imported;
otherwise `epolls` if importable, else `poll` if `select.poll` exists,
else `selects`. -/
def get_default_hub (env : HubEnv) : HubModule :=
  if env.twistedReactorLoaded then .twistedr
  else if env.epollsImportable then .epolls
  else if env.selectHasPoll then .poll
  else .selects

/-- The module-selection logic of `use_hub(mod)` (hubs/__init__.py lines
52-76): when `mod` is `None` take `os.environ.get('EVENTLET_HUB')`; when
that is also `None`, take `get_default_hub()`.  A string selects the named
hub module. -/
def use_hub_choice (env : HubEnv) (mod : Option String) (envVar : Option String) :
    HubModule :=
  match mod with
  | some s => .named s
  | Option.none =>
    match envVar with
    | some s => .named s
    | Option.none => get_default_hub env

/-! ## Theorems about the claims -/

/-- C1 counterexample: an event with fiber 7 blocked in `wait()` (first
conjunct) that is then `send`(None, exc=userExc 3).  The scheduled resume
is `greenlib.switch(7, self._result)`, so the blocked fiber's `wait()`
returns the stored value `None` as a normal return — the stored exception
is *not* re-raised in it, contradicting the claim that every fiber that
obtains the result via `wait()` has the exception re-raised. -/
theorem C1_blocked_waiter_gets_value_not_exception :
    event.wait event.new 7 = .blocked ⟨Option.none, Option.none, [7]⟩
  ∧ event.send ⟨Option.none, Option.none, [7]⟩ PyVal.none (some (.userExc 3)) =
      ⟨Option.none, ⟨some PyVal.none, some (.userExc 3), [7]⟩, [Call.switch 7 PyVal.none]⟩
  ∧ resumedWaitOutcome (Call.switch 7 PyVal.none) = .returns PyVal.none
  ∧ resumedWaitOutcome (Call.switch 7 PyVal.none) ≠ .raises (.userExc 3) :=
  ⟨rfl, rfl, rfl, fun h => nomatch h⟩

/-- C1 amended: on `send(value, exc)` with a non-null exception, every
fiber already blocked in `wait()` is scheduled to resume with the stored
*value* (a normal return of `wait`); only a fiber calling `wait()` after
the event is TRIGGERED has the stored exception re-raised. -/
theorem C1_exception_only_for_late_waiters
    (ws : List Fiber) (x : Option PyExc) (v : PyVal) (e : PyExc) (f : Fiber) :
    (event.send ⟨Option.none, x, ws⟩ v (some e)).scheduled =
        ws.map (fun w => Call.switch w v)
  ∧ resumedWaitOutcome (Call.switch f v) = .returns v
  ∧ event.wait ⟨some v, some e, ws⟩ f = .raises e :=
  ⟨rfl, rfl, rfl⟩

/-- C2: for every trampoline call that passes the assertions and requests
exactly one direction, on both exit paths (normal return of the switched
value, and propagation of the exception thrown in by the timer) the
installed listener is no longer in the hub's listener registry and the
scheduled timeout timer (when a timeout was given) is no longer in the
timer set. -/
theorem C2_trampoline_cleanup (h : HubState) (read write : Bool) (fileno : Nat)
    (tmo : Option Nat) (oc : SwitchOutcome)
    (hrw : (read = true ∧ write = false) ∨ (read = false ∧ write = true)) :
    (if read then (false, fileno) else (true, fileno)) ∉
        (trampoline h false read write tmo fileno oc).2.listeners
  ∧ (∀ d : Nat, tmo = some d →
        h.nextTimerId ∉ (trampoline h false read write tmo fileno oc).2.timers)
  ∧ (trampoline h false read write tmo fileno oc).1 =
      (match oc with | .normal v => Except.ok v | .thrown e => Except.error e) := by
  rcases hrw with ⟨hr, hw⟩ | ⟨hr, hw⟩ <;> subst hr <;> subst hw <;>
    cases tmo <;> cases oc <;>
    simp [trampoline, scheduleGlobal, hubAdd, hubRemove, timerCancel,
          List.mem_filter]

/-- C2 witness: a concrete read-trampoline with a timeout whose fd becomes
ready: the listener and the timer are gone and the switched value is
returned. -/
theorem C2_trampoline_cleanup_witness :
    (false, 5) ∉
        (trampoline ⟨[], [], 0⟩ false true false (some 2) 5 (.normal PyVal.none)).2.listeners
  ∧ 0 ∉ (trampoline ⟨[], [], 0⟩ false true false (some 2) 5 (.normal PyVal.none)).2.timers
  ∧ (trampoline ⟨[], [], 0⟩ false true false (some 2) 5 (.normal PyVal.none)).1 =
      Except.ok PyVal.none := by
  have h := C2_trampoline_cleanup ⟨[], [], 0⟩ true false 5 (some 2)
    (.normal PyVal.none) (Or.inl ⟨rfl, rfl⟩)
  exact ⟨h.1, h.2.1 2 rfl, h.2.2⟩

/-- C3 counterexample: `event.wait` called from the hub fiber (fiber 0)
does not raise any usage/assertion error — the source of `event.wait`
contains no check that the caller is not the hub fiber; the call simply
records the hub fiber as a waiter and blocks.  This contradicts the
claim's conjunct that `event.wait` asserts the caller is not the hub
fiber. -/
theorem C3_wait_from_hub_fiber_blocks :
    event.wait event.new 0 = .blocked ⟨Option.none, Option.none, [0]⟩ := rfl

/-- C3 amended: `trampoline` asserts the caller is not the hub fiber and
asserts that read and write are not both requested; `event.wait` performs
no hub-fiber assertion and blocks whatever the calling fiber is. -/
theorem C3_only_trampoline_asserts :
    (∀ (h : HubState) (read write : Bool) (tmo : Option Nat) (fn : Nat)
        (oc : SwitchOutcome),
        trampoline h true read write tmo fn oc =
          (.error (.assertionError "do not call blocking functions from the mainloop"), h))
  ∧ (∀ (h : HubState) (tmo : Option Nat) (fn : Nat) (oc : SwitchOutcome),
        trampoline h false true true tmo fn oc =
          (.error (.assertionError "not allowed to trampoline for reading and writing"), h))
  ∧ (∀ (x : Option PyExc) (ws : List Fiber) (f : Fiber),
        event.wait ⟨Option.none, x, ws⟩ f = .blocked ⟨Option.none, x, insertWaiter ws f⟩) :=
  ⟨fun _ _ _ _ _ _ => rfl, fun _ _ _ _ => rfl, fun _ _ _ => rfl⟩

/-- C4: `send` on a TRIGGERED event raises the assertion error
synchronously, leaves the stored value/exception and waiter set unchanged
and schedules nothing; and `send` succeeds exactly when the event is
FRESH. -/
theorem C4_double_send_asserts :
    (∀ (r : PyVal) (x : Option PyExc) (ws : List Fiber) (v : PyVal) (e : Option PyExc),
        event.send ⟨some r, x, ws⟩ v e =
          ⟨some (.assertionError "Trying to re-send() an already-triggered event."),
           ⟨some r, x, ws⟩, []⟩)
  ∧ (∀ (st : EventState) (v : PyVal) (e : Option PyExc),
        (event.send st v e).err = Option.none ↔ st.result = Option.none) := by
  refine ⟨fun _ _ _ _ _ => rfl, fun st v e => ?_⟩
  obtain ⟨r, x, ws⟩ := st
  cases r <;> simp [event.send]

/-- C5: from a fresh event, `send(x); reset(); send(y)` is a legal
sequence (no step raises) and a subsequent `wait()` returns `y`; and
`reset` succeeds exactly when the event is TRIGGERED (reset on a FRESH
event raises). -/
theorem C5_send_reset_send_wait :
    (∀ (x y : PyVal) (f : Fiber),
        (event.send event.new x Option.none).err = Option.none
      ∧ (event.reset (event.send event.new x Option.none).st).err = Option.none
      ∧ (event.send (event.reset (event.send event.new x Option.none).st).st y
            Option.none).err = Option.none
      ∧ event.wait (event.send (event.reset (event.send event.new x Option.none).st).st y
            Option.none).st f = .value y)
  ∧ (∀ st : EventState, (event.reset st).err = Option.none ↔ st.result ≠ Option.none) := by
  refine ⟨fun x y f => ⟨rfl, rfl, rfl, rfl⟩, fun st => ?_⟩
  obtain ⟨r, x, ws⟩ := st
  cases r <;> simp [event.reset]

/-- Invariant of the actor machine: the history of cast messages is
always the history of messages handed to `received` followed by the
current mailbox contents. -/
theorem Actor.run_preserves_order (acts : List ActorAction) :
    ∀ st : ActorState, st.casts = st.log ++ st.mailbox →
      (Actor.run st acts).casts =
        (Actor.run st acts).log ++ (Actor.run st acts).mailbox := by
  induction acts with
  | nil => exact fun st h => h
  | cons a rest ih =>
    intro st h
    cases a with
    | cast m =>
      exact ih _ (by simp [Actor.cast, h])
    | step =>
      obtain ⟨mb, lg, cs⟩ := st
      cases mb with
      | nil => exact ih _ h
      | cons m ms =>
        refine ih _ ?_
        simp only [Actor.ownerStep] at h ⊢
        rw [h]
        simp

/-- C6: in every interleaving of `cast` calls and owner-loop steps started
from a fresh actor, the cast history equals the `received` log followed by
the pending mailbox — so `received` is invoked at most once per enqueued
message, in enqueue order (each owner step handles a single message to
completion, so `received` is never reentered), and once the mailbox is
drained every cast message has been received exactly once; moreover `cast`
sends the internal event exactly when the message it appends is the only
one in the mailbox. -/
theorem C6_actor_receive_discipline :
    (∀ acts : List ActorAction,
        (Actor.run Actor.init acts).casts =
          (Actor.run Actor.init acts).log ++ (Actor.run Actor.init acts).mailbox)
  ∧ (∀ (st : ActorState) (m : PyVal), (Actor.cast st m).2 = st.mailbox.isEmpty) := by
  constructor
  · exact fun acts => Actor.run_preserves_order acts Actor.init rfl
  · intro st m
    cases h : st.mailbox <;> simp [Actor.cast, h]

/-- C7: in one `CoroutinePool._main_loop` iteration, an ordinary exception
from `fn` is captured and sent through the job's result event, an
`api.GreenletExit` is silently suppressed (nothing sent), a normal result
is sent through the result event, and in every case the worker cancels the
timers bound to itself and returns itself to the pool's free list. -/
theorem C7_pool_worker_actions :
    (∀ (id : Nat) (e : PyExc),
        CoroutinePool.mainLoopIter (some id) (.exc e) = ⟨some (id, .exception e), true, true⟩)
  ∧ (∀ evt : Option Nat,
        CoroutinePool.mainLoopIter evt .greenletExit = ⟨Option.none, true, true⟩)
  ∧ (∀ (id : Nat) (v : PyVal),
        CoroutinePool.mainLoopIter (some id) (.ok v) = ⟨some (id, .value v), true, true⟩)
  ∧ (∀ (evt : Option Nat) (oc : JobOutcome),
        (CoroutinePool.mainLoopIter evt oc).timersCancelled = true ∧
        (CoroutinePool.mainLoopIter evt oc).returnedToPool = true) := by
  refine ⟨fun _ _ => rfl, fun _ => rfl, fun _ _ => rfl, fun evt oc => ?_⟩
  cases oc <;> exact ⟨rfl, rfl⟩

/-- C8 counterexample: a request whose callable raises
`KeyboardInterrupt` (a member of `SYS_EXCS`) makes `tworker` re-raise: no
response is pushed to the response queue and no wake byte is written, so
that enqueued non-sentinel request never produces a send on its result
event — contradicting the claim that every non-sentinel request produces
exactly one response. -/
theorem C8_sys_exc_kills_worker_without_response :
    tworker_step (some (0, .raises .keyboardInterrupt)) = .propagate .keyboardInterrupt
  ∧ tworker_step (some (0, .raises .keyboardInterrupt)) ≠
      .response 0 (excInfo .keyboardInterrupt) true :=
  ⟨rfl, fun h => nomatch h⟩

/-- C8 amended: the worker loop exits normally exactly on the `None`
sentinel; a non-sentinel request whose callable returns a value, or raises
an ordinary exception, pushes exactly one `(result-event, outcome)`
response and writes one wake byte, the outcome being the value or the
captured `sys.exc_info()` triple; but a callable raising a system
exception (`KeyboardInterrupt`, `SystemExit`) is re-raised, terminating
the worker thread with no response for that request. -/
theorem C8_tworker_loop :
    (∀ m : Option (Nat × MethResult), tworker_step m = .exitLoop ↔ m = Option.none)
  ∧ (∀ (id : Nat) (v : PyVal), tworker_step (some (id, .ok v)) = .response id v true)
  ∧ (∀ (id : Nat) (e : PyExc),
        tworker_step (some (id, .raises e)) =
          if isSysExc e then .propagate e else .response id (excInfo e) true) := by
  refine ⟨fun m => ?_, fun _ _ => rfl, fun _ _ => rfl⟩
  cases m with
  | none => simp [tworker_step]
  | some p =>
    obtain ⟨id, mr⟩ := p
    cases mr with
    | ok v => simp [tworker_step]
    | raises e => cases he : isSysExc e <;> simp [tworker_step, he]

/-- C9 counterexample: with `twisted.internet.reactor` already imported
and epoll available, the default hub selection (no `use_hub` argument, no
`EVENTLET_HUB` environment value) returns the twisted hub, not epoll —
contradicting the claim that the default is epoll whenever epoll is
available. -/
theorem C9_twisted_preempts_epoll :
    use_hub_choice ⟨true, true, true⟩ Option.none Option.none = .twistedr
  ∧ HubModule.twistedr ≠ HubModule.epolls :=
  ⟨rfl, fun h => nomatch h⟩

/-- C9 amended: when no hub is explicitly selected, the default hub is
`twistedr` whenever the twisted reactor module is already imported;
otherwise it is epoll if available, else poll if available, else
select. -/
theorem C9_default_hub_selection :
    (∀ ep p : Bool, use_hub_choice ⟨false, ep, p⟩ Option.none Option.none =
        (if ep then .epolls else if p then .poll else .selects))
  ∧ (∀ ep p : Bool, use_hub_choice ⟨true, ep, p⟩ Option.none Option.none = .twistedr)
  ∧ (∀ env : HubEnv, use_hub_choice env Option.none Option.none = get_default_hub env) := by
  refine ⟨fun ep p => ?_, fun _ _ => rfl, fun _ => rfl⟩
  simp [use_hub_choice, get_default_hub]

/-- C10: a callable that completes successfully and returns a 3-tuple with
an `Exception` instance in position 1 has its value faithfully pushed as
the response by the worker thread, but `erecv` classifies exactly that
shape as captured exception info and re-raises the exception in the
caller's fiber instead of returning the tuple. -/
theorem C10_success_tuple_misread_as_failure
    (a b : PyVal) (e : PyExc) (id : Nat) :
    tworker_step (some (id, .ok (.tuple [a, .exc e, b]))) =
        .response id (.tuple [a, .exc e, b]) true
  ∧ erecv (.tuple [a, .exc e, b]) = .error e :=
  ⟨rfl, rfl⟩

end Eventlet
